import Mathlib

/-!
Verification of the Astro server-side request pipeline.

Shallow embedding of:
- `createAPIContext`, `call` (endpoint invoker) and `throwIfRedirectNotAllowed`
  from the endpoint module;
- `App.match`, `App.render`, `App.#renderPage`, `App.#callEndpoint`
  from the app orchestrator module.

External collaborators (the route matcher `matchRoute`, the page renderer
`renderPage`, the `mime` library, the serializability predicate
`isValueSerializable`, and user endpoint/middleware code) are modelled as
function parameters: the theorems quantify over their behaviour.
-/

set_option autoImplicit false

namespace Astro

/-- JavaScript runtime values, as far as the pipeline inspects them.
Objects are finite association lists of fields; functions are kept
abstract since the code only ever asks `typeof` of them. -/
inductive JSValue where
  | vUndefined
  | vNull
  | vBool (b : Bool)
  | vNum (n : Int)
  | vStr (s : String)
  | vObj (fields : List (String × JSValue))
  | vFun

/-- The JavaScript `typeof` operator. Note `typeof null` is `"object"` and
`typeof` of a function is `"function"`, exactly as in JavaScript. -/
def jsTypeof : JSValue → String
  | .vUndefined => "undefined"
  | .vNull => "object"
  | .vBool _ => "boolean"
  | .vNum _ => "number"
  | .vStr _ => "string"
  | .vObj _ => "object"
  | .vFun => "function"

/-- A value is an object in the ECMAScript sense: object literals and
functions are objects; `null` is not an object. -/
def isJSObject : JSValue → Bool
  | .vObj _ => true
  | .vFun => true
  | _ => false

/-- Errors of the `AstroError`/`AstroErrorData` taxonomy that the embedded
code can throw. -/
inductive AstroError where
  | LocalsNotAnObject
  | ClientAddressNotAvailable (adapterName : String)
  | StaticClientAddressNotAvailable
  | LocalsNotSerializable (pathname : String)
  | StaticRedirectNotAvailable
deriving DecidableEq, Repr

/-- A cookie jar (`AstroCookies`); the pipeline treats it as an opaque
request-scoped value that gets attached to responses. -/
structure AstroCookies where
  entries : List (String × String) := []
deriving DecidableEq, Repr

/-- A WHATWG `Response` as far as the pipeline inspects it: status,
status text, headers, body (`none` models a `null` body), plus the
cookie jar attached by `attachToResponse`. -/
structure Response where
  status : Nat
  statusText : String := ""
  headers : List (String × String) := []
  body : Option String := none
  attachedCookies : Option AstroCookies := none
deriving DecidableEq, Repr

/-- Model of `Headers.get`: first header with the given name, if any. -/
def headersGet (hs : List (String × String)) (name : String) : Option String :=
  (hs.find? (fun p => p.1 == name)).map (fun p => p.2)

/-- Model of `attachToResponse(response, cookies)` from the cookies module
(modelled: it records the jar on the response for later
`Set-Cookie` serialization). -/
def attachToResponse (r : Response) (c : AstroCookies) : Response :=
  { r with attachedCookies := some c }

/-- The mutable per-request state carried by the raw `Request` object:
the `astro.locals` symbol slot and the optional `astro.clientAddress`
symbol slot attached by adapters. -/
structure RequestState where
  url : String := "http://example.com/"
  localsAttached : JSValue := .vObj []
  clientAddressAttached : Option JSValue := none

/-- The API context produced by `createAPIContext`, restricted to the data
its accessors close over: the raw request state and the adapter name. -/
structure APIContext where
  request : RequestState
  adapterName : Option String

/-- Model of `createAPIContext({request, params, site, props, adapterName})`:
builds the context whose accessors are modelled below. -/
def createAPIContext (request : RequestState) (adapterName : Option String) :
    APIContext :=
  { request := request, adapterName := adapterName }

/-- The `locals` getter installed by `Object.defineProperty` in
`createAPIContext`: reads the `astro.locals` slot of the raw request. -/
def APIContext.localsGet (c : APIContext) : JSValue :=
  c.request.localsAttached

/-- The `locals` setter installed by `Object.defineProperty` in
`createAPIContext`: rejects `val` when `typeof val !== 'object'`,
otherwise stores it in the `astro.locals` slot of the raw request. -/
def APIContext.localsSet (c : APIContext) (val : JSValue) :
    Except AstroError APIContext :=
  if jsTypeof val ≠ "object" then
    .error .LocalsNotAnObject
  else
    .ok { c with request := { c.request with localsAttached := val } }

/-- The lazily evaluated `clientAddress` getter of `createAPIContext`:
if the `astro.clientAddress` symbol is not on the request, throw an error
chosen by the truthiness of `adapterName` (JavaScript `if (adapterName)`:
an absent or empty name is falsy); otherwise return the attached value. -/
def APIContext.clientAddress (c : APIContext) : Except AstroError JSValue :=
  match c.request.clientAddressAttached with
  | none =>
    match c.adapterName with
    | some name =>
      if name ≠ "" then
        .error (.ClientAddressNotAvailable name)
      else
        .error .StaticClientAddressNotAvailable
    | none => .error .StaticClientAddressNotAvailable
  | some v => .ok v

/-- The preliminary value produced by `renderEndpoint`: either a full
`Response`, or a "simple" endpoint output object `{body, encoding?,
headers?}`. `hasHeaders` records whether the object owns a `headers`
property; the `body` of a simple output is a string (never `null`). -/
inductive EndpointResponse where
  | resp (r : Response)
  | simple (body : String) (encoding : Option String) (hasHeaders : Bool)

/-- The test `response.body === null` performed by the endpoint invoker:
true only for a full `Response` with a `null` body; a simple output's
`body` field is a string, hence never `null`. -/
def endpointResponseBodyIsNull : EndpointResponse → Bool
  | .resp r => r.body == none
  | .simple _ _ _ => false

/-- True for a simple (non-`Response`) endpoint output. -/
def isSimpleOutput : EndpointResponse → Bool
  | .resp _ => false
  | .simple _ _ _ => true

/-- The terminal continuation the endpoint invoker passes to
`callMiddleware`: in development mode it first checks `context.locals`
with `isValueSerializable` (an external predicate, here a parameter) and
throws `LocalsNotSerializable` on failure; otherwise it returns the
preliminary response. -/
def endpointTerminalNext (mode : String) (isValueSerializable : JSValue → Bool)
    (locals : JSValue) (pathname : String) (response : EndpointResponse) :
    Except AstroError EndpointResponse :=
  if mode == "development" && !(isValueSerializable locals) then
    .error (.LocalsNotSerializable pathname)
  else
    .ok response

/-- Observable events of the endpoint invoker's middleware section:
either the middleware runner was invoked, or it was bypassed and the
"Middleware doesn't work for endpoints that return a simple body"
warning was logged. -/
inductive CallEvent where
  | ranMiddleware
  | warnedSimpleBody
deriving DecidableEq, Repr

/-- The middleware section of `call` (the endpoint invoker): when
middleware with an `onRequest` hook is configured and the preliminary
response has a `null` body, the response is re-run through the middleware
runner (`runMiddleware`, user code modelled as a parameter) with
`endpointTerminalNext` as the terminal continuation; with a non-`null`
body the runner is bypassed and the warning is logged; with no
`onRequest` hook nothing happens. Returns the resulting value paired
with the list of observable events. -/
def callMiddlewareSection (hasOnRequest : Bool) (mode : String)
    (isValueSerializable : JSValue → Bool) (locals : JSValue)
    (pathname : String)
    (runMiddleware :
      (Unit → Except AstroError EndpointResponse) →
        Except AstroError EndpointResponse)
    (response : EndpointResponse) :
    Except AstroError EndpointResponse × List CallEvent :=
  if hasOnRequest then
    if endpointResponseBodyIsNull response then
      (runMiddleware
        (fun _ =>
          endpointTerminalNext mode isValueSerializable locals pathname
            response),
        [.ranMiddleware])
    else
      (.ok response, [.warnedSimpleBody])
  else
    (.ok response, [])

/-- A route descriptor from the manifest: pattern, route kind
(`"page"` or `"endpoint"`), prerender flag, opaque component key. -/
structure RouteData where
  route : String
  type : String
  prerender : Bool := false
  component : String := ""
deriving DecidableEq, Repr

/-- The result of one `renderPage` invocation (together with everything
inside `#renderPage`'s `try` block): a response, or a thrown error. -/
inductive RenderOutcome where
  | ok (r : Response)
  | err
deriving DecidableEq, Repr

/-- The result of the endpoint invoker `call` as consumed by
`App.#callEndpoint`: tagged union of a full response and a simple body. -/
inductive EndpointCallResult where
  | response (response : Response)
  | simple (body : String) (encoding : Option String) (cookies : AstroCookies)

/-- The collaborators an `App` instance closes over, modelled as
functions of a single in-flight request:
`matchRouteFn p` is `matchRoute(p, manifestData)` (routing module, external);
`assets` is the manifest's static asset set;
`renderAttempt rd status` is the outcome of the body of `#renderPage`'s
`try` block for that route and status (render module + middleware + user
code, external);
`renderPrelude rd` is true when the code of `#renderPage` before its
`try` block throws (e.g. route-info lookup failure);
`endpointResult rd` is the result of the endpoint invoker for that route;
`mimeGetType p` is `mime.getType(p)` (external library, extension
lookup). -/
structure AppModel where
  assets : List String
  matchRouteFn : String → Option RouteData
  renderPrelude : RouteData → Bool
  renderAttempt : RouteData → Nat → RenderOutcome
  endpointResult : RouteData → EndpointCallResult
  mimeGetType : String → Option String

/-- The bare 404 response `App.render` returns when nothing matches. -/
def bare404 : Response :=
  { status := 404, statusText := "Not found" }

/-- The bare 500 response `#renderPage` returns when the render throws. -/
def bare500 : Response :=
  { status := 500, statusText := "Internal server error" }

/-- Model of `App.match(request, {matchNotFound})`, instrumented: returns the
matched route (if any) together with the list of patterns handed to
`matchRoute`. Asset paths are ignored; a matched pre-rendered route
yields no match; only when no route matched at all and `matchNotFound`
is set is the fixed `/404` pattern additionally attempted, itself
suppressed when pre-rendered. -/
def appMatchTraced (A : AppModel) (pathname : String) (matchNotFound : Bool) :
    Option RouteData × List String :=
  if A.assets.contains pathname then
    (none, [])
  else
    match A.matchRouteFn pathname with
    | some routeData =>
      (if routeData.prerender then none else some routeData, [pathname])
    | none =>
      if matchNotFound then
        (match A.matchRouteFn "/404" with
          | some nf => if nf.prerender then none else some nf
          | none => none,
          [pathname, "/404"])
      else
        (none, [pathname])

/-- Model of `App.match` without the instrumentation. -/
def appMatch (A : AppModel) (pathname : String) (matchNotFound : Bool) :
    Option RouteData :=
  (appMatchTraced A pathname matchNotFound).1

/-- Model of `App.#renderPage(request, routeData, mod, status)`, instrumented with
the list of attempted `(route, status)` renders. The code before the
`try` block may throw (propagated as `.error`); inside the `try`, a
thrown render is caught and turned into the bare 500 response. -/
def renderPageStep (A : AppModel) (rd : RouteData) (status : Nat) :
    Except Unit Response × List (RouteData × Nat) :=
  if A.renderPrelude rd then
    (.error (), [(rd, status)])
  else
    match A.renderAttempt rd status with
    | .ok r => (.ok r, [(rd, status)])
    | .err => (.ok bare500, [(rd, status)])

/-- The page branch of `App.render` (lines following
`if (routeData.type === 'page')`), instrumented: renders the route;
when the response has status 500, looks up a `/500` route with
`matchRoute` and, if one exists, makes exactly one fallback render at
status 500, returning its response, with any error of that fallback
caught and the original response returned instead. -/
def renderPageBranch (A : AppModel) (rd : RouteData) (defaultStatus : Nat) :
    Except Unit Response × List (RouteData × Nat) :=
  match renderPageStep A rd defaultStatus with
  | (.error e, t1) => (.error e, t1)
  | (.ok response, t1) =>
    if response.status == 500 then
      match A.matchRouteFn "/500" with
      | some fiveHundredRouteData =>
        match renderPageStep A fiveHundredRouteData 500 with
        | (.ok fiveHundredResponse, t2) => (.ok fiveHundredResponse, t1 ++ t2)
        | (.error _, t2) => (.ok response, t1 ++ t2)
      | none => (.ok response, t1)
    else
      (.ok response, t1)

/-- The simple-body arm of `App.#callEndpoint`: Content-Type from
`mime.getType` on the URL pathname (suffixed `;charset=utf-8`),
defaulting to `text/plain;charset=utf-8`; Content-Length from the UTF-8
encoded byte length of the body; status 200; the invoker's cookie jar
attached. -/
def buildSimpleResponse (mimeGetType : String → Option String)
    (pathname : String) (body : String) (cookies : AstroCookies) : Response :=
  let contentType :=
    match mimeGetType pathname with
    | some mimeType => mimeType ++ ";charset=utf-8"
    | none => "text/plain;charset=utf-8"
  attachToResponse
    { status := 200,
      headers :=
        [("Content-Type", contentType),
         ("Content-Length", toString body.utf8ByteSize)],
      body := some body }
    cookies

/-- Model of `App.#callEndpoint(request, routeData, mod, status)`, with the
recursive `this.render` call abstracted as `renderFn`: a full response
carrying the `X-Astro-Response: Not-Found` sentinel header triggers a
re-match of `/404` and, when a route is found, a recursive render of it;
otherwise the response is returned; a simple result is packaged by
`buildSimpleResponse`. -/
def callEndpointStep
    (renderFn : String → Option RouteData → Except Unit Response)
    (A : AppModel) (pathname : String) (rd : RouteData) :
    Except Unit Response :=
  match A.endpointResult rd with
  | .response resp =>
    if headersGet resp.headers "X-Astro-Response" == some "Not-Found" then
      match appMatch A "/404" false with
      | some fourOhFourRouteData => renderFn "/404" (some fourOhFourRouteData)
      | none => .ok resp
    else
      .ok resp
  | .simple body _encoding cookies =>
    .ok (buildSimpleResponse A.mimeGetType pathname body cookies)

/-- Model of `App.render(request, routeData?)`: matches when no route is supplied
(first without, then with the not-found variant, else the bare 404),
forces status 404 for the `/404` route, and dispatches on the route
kind. The `fuel` bounds the `#callEndpoint → render` recursion (the
argument models the single-request call stack; `.error` at fuel 0 is
unreachable for the stacks the theorems use). -/
def appRender (A : AppModel) :
    Nat → String → Option RouteData → Except Unit Response
  | 0, _, _ => .error ()
  | fuel + 1, pathname, routeDataArg =>
    let matched :=
      match routeDataArg with
      | some rd => some (rd, 200)
      | none =>
        match appMatch A pathname false with
        | some rd => some (rd, 200)
        | none =>
          match appMatch A pathname true with
          | some rd => some (rd, 404)
          | none => none
    match matched with
    | none => .ok bare404
    | some (rd, ds0) =>
      let defaultStatus := if rd.route == "/404" then 404 else ds0
      if rd.type == "page" then
        (renderPageBranch A rd defaultStatus).1
      else if rd.type == "endpoint" then
        callEndpointStep (fun p r => appRender A fuel p r) A pathname rd
      else
        .error ()

/-- Model of `isRedirect(statusCode)`: a 3xx status. -/
def isRedirect (statusCode : Nat) : Bool :=
  300 ≤ statusCode && statusCode < 400

/-- Model of `throwIfRedirectNotAllowed(response, config)`: throws
`StaticRedirectNotAvailable` when the configured output mode is not
`'server'` and the response status is a redirect. -/
def throwIfRedirectNotAllowed (response : Response) (output : String) :
    Except AstroError Unit :=
  if output ≠ "server" && isRedirect response.status then
    .error .StaticRedirectNotAvailable
  else
    .ok ()

/-! ## Theorems -/

/-- Claim C8: the redirect guard throws a configuration error exactly when
the response status is in the range 300 to 399 inclusive and the
configured output mode is not `'server'`; for statuses outside 3xx, or in
server output mode, it does not throw. -/
theorem redirect_guard_throws_iff (response : Response) (output : String) :
    throwIfRedirectNotAllowed response output =
        .error .StaticRedirectNotAvailable ↔
      output ≠ "server" ∧ 300 ≤ response.status ∧ response.status ≤ 399 := by
  rw [throwIfRedirectNotAllowed, isRedirect]
  by_cases h : output = "server"
  · simp [h]
  · simp [h]
    omega

/-- Claim C2 (counterexample): `null` is not an object, yet assigning it
to `context.locals` succeeds (and round-trips), because the setter checks
`typeof val !== 'object'` and `typeof null` is `"object"` in JavaScript. -/
theorem locals_null_assignment_accepted :
    isJSObject .vNull = false ∧
      (createAPIContext {} none).localsSet .vNull =
        .ok (createAPIContext { localsAttached := .vNull } none) :=
  ⟨rfl, rfl⟩

/-- Claim C2 (amended): for every context produced by `createAPIContext`,
assigning `v` to `context.locals` fails with the `LocalsNotAnObject`
validation error exactly when `typeof v` is not `"object"`, and succeeds
and round-trips exactly when `typeof v` is `"object"` (so the number `5`
fails and `{a: 1}` succeeds and round-trips, but `null` is accepted and
function values are rejected although functions are objects). -/
theorem locals_assignment_typeof (c : APIContext) (v : JSValue) :
    (c.localsSet v = .error .LocalsNotAnObject ↔ jsTypeof v ≠ "object") ∧
    ((c.localsSet v).map APIContext.localsGet = .ok v ↔
      jsTypeof v = "object") ∧
    c.localsSet (.vNum 5) = .error .LocalsNotAnObject ∧
    (c.localsSet (.vObj [("a", .vNum 1)])).map APIContext.localsGet =
      .ok (.vObj [("a", .vNum 1)]) := by
  refine ⟨?_, ?_, rfl, rfl⟩ <;>
    cases v <;>
    simp [APIContext.localsSet, APIContext.localsGet, jsTypeof, Except.map]

/-- Claim C7: accessing `clientAddress` when the client-address value was
not attached to the request throws `ClientAddressNotAvailable` when an
adapter name is configured and `StaticClientAddressNotAvailable` when no
adapter is configured; when the value was attached, the accessor returns
it (whatever the adapter configuration). -/
theorem clientAddress_access (u : String) (l : JSValue) (name : String)
    (a : Option String) (v : JSValue) (hname : name ≠ "") :
    (createAPIContext ⟨u, l, none⟩ (some name)).clientAddress =
      .error (.ClientAddressNotAvailable name) ∧
    (createAPIContext ⟨u, l, none⟩ none).clientAddress =
      .error .StaticClientAddressNotAvailable ∧
    (createAPIContext ⟨u, l, some v⟩ a).clientAddress = .ok v := by
  refine ⟨?_, rfl, rfl⟩
  simp [createAPIContext, APIContext.clientAddress, hname]

/-- Witness for `clientAddress_access` at a concrete context. -/
theorem clientAddress_access_witness :
    ("node" : String) ≠ "" ∧
    ((createAPIContext ⟨"http://example.com/", .vObj [], none⟩
          (some "node")).clientAddress =
        .error (.ClientAddressNotAvailable "node") ∧
      (createAPIContext ⟨"http://example.com/", .vObj [], none⟩
          none).clientAddress =
        .error .StaticClientAddressNotAvailable ∧
      (createAPIContext ⟨"http://example.com/", .vObj [],
          some (.vStr "1.2.3.4")⟩ none).clientAddress =
        .ok (.vStr "1.2.3.4")) :=
  ⟨by decide,
    clientAddress_access "http://example.com/" (.vObj []) "node" none
      (.vStr "1.2.3.4") (by decide)⟩

/-- Claim C9: in the endpoint invoker's middleware path, the preliminary
response flows through the terminal continuation handed to the middleware
runner; that continuation throws `LocalsNotSerializable` when the mode is
`'development'` and the locals are not serializable, and passes the
response through unchecked when the mode is not `'development'`. -/
theorem dev_locals_serializability (mode : String)
    (isValueSerializable : JSValue → Bool) (locals : JSValue)
    (pathname : String) (response : EndpointResponse)
    (runMiddleware :
      (Unit → Except AstroError EndpointResponse) →
        Except AstroError EndpointResponse)
    (hbody : endpointResponseBodyIsNull response = true) :
    (callMiddlewareSection true mode isValueSerializable locals pathname
        runMiddleware response).1 =
      runMiddleware
        (fun _ =>
          endpointTerminalNext mode isValueSerializable locals pathname
            response) ∧
    (isValueSerializable locals = false →
      endpointTerminalNext "development" isValueSerializable locals pathname
          response =
        .error (.LocalsNotSerializable pathname)) ∧
    (mode ≠ "development" →
      endpointTerminalNext mode isValueSerializable locals pathname
          response =
        .ok response) := by
  refine ⟨by simp [callMiddlewareSection, hbody], ?_, ?_⟩
  · intro h
    simp [endpointTerminalNext, h]
  · intro h
    simp [endpointTerminalNext, h]

/-- Witness for `dev_locals_serializability` at a concrete invocation. -/
theorem dev_locals_serializability_witness :
    endpointResponseBodyIsNull (.resp { status := 200 }) = true ∧
    ((callMiddlewareSection true "production" (fun _ => false) .vFun "/x"
          (fun next => next ()) (.resp { status := 200 })).1 =
        (fun next => next ())
          (fun _ =>
            endpointTerminalNext "production" (fun _ => false) .vFun "/x"
              (.resp { status := 200 })) ∧
      ((fun _ : JSValue => false) .vFun = false →
        endpointTerminalNext "development" (fun _ => false) .vFun "/x"
            (.resp { status := 200 }) =
          .error (.LocalsNotSerializable "/x")) ∧
      (("production" : String) ≠ "development" →
        endpointTerminalNext "production" (fun _ => false) .vFun "/x"
            (.resp { status := 200 }) =
          .ok (.resp { status := 200 }))) :=
  ⟨rfl,
    dev_locals_serializability "production" (fun _ => false) .vFun "/x"
      (.resp { status := 200 }) (fun next => next ()) rfl⟩

/-- Claim C4 (counterexample): with middleware configured, a full
`Response` carrying a body also bypasses the runner with the
"simple body" warning, although it is not a non-`Response` simple body —
refuting that only simple bodies are warned about. -/
theorem endpoint_warning_on_response_with_body :
    (callMiddlewareSection true "production" (fun _ => true) (.vObj []) "/x"
        (fun next => next ())
        (.resp { status := 200, body := some "x" })).2 =
      [.warnedSimpleBody] ∧
    isSimpleOutput (.resp { status := 200, body := some "x" }) = false :=
  ⟨rfl, rfl⟩

/-- Claim C4 (amended): in the endpoint invoker, when middleware with an
`onRequest` hook is configured, the preliminary response is re-run
through the middleware runner if and only if it has a `null` body; when
it has a body the runner is bypassed and the warning is emitted — whether
the handler returned a full `Response` with a body or a non-`Response`
simple body. -/
theorem endpoint_middleware_dispatch (mode : String)
    (isValueSerializable : JSValue → Bool) (locals : JSValue)
    (pathname : String)
    (runMiddleware :
      (Unit → Except AstroError EndpointResponse) →
        Except AstroError EndpointResponse)
    (response : EndpointResponse) :
    ((callMiddlewareSection true mode isValueSerializable locals pathname
          runMiddleware response).2 = [.ranMiddleware] ↔
      endpointResponseBodyIsNull response = true) ∧
    ((callMiddlewareSection true mode isValueSerializable locals pathname
          runMiddleware response).2 = [.warnedSimpleBody] ↔
      endpointResponseBodyIsNull response = false) ∧
    (endpointResponseBodyIsNull response = true →
      (callMiddlewareSection true mode isValueSerializable locals pathname
          runMiddleware response).1 =
        runMiddleware
          (fun _ =>
            endpointTerminalNext mode isValueSerializable locals pathname
              response)) := by
  by_cases h : endpointResponseBodyIsNull response = true
  · refine ⟨by simp [callMiddlewareSection, h], by simp [callMiddlewareSection, h], ?_⟩
    intro _
    simp [callMiddlewareSection, h]
  · rw [Bool.not_eq_true] at h
    refine ⟨by simp [callMiddlewareSection, h], by simp [callMiddlewareSection, h], ?_⟩
    intro hcontra
    rw [h] at hcontra
    exact absurd hcontra (by decide)

/-- Witness for `endpoint_middleware_dispatch` at a concrete bodiless
response. -/
theorem endpoint_middleware_dispatch_witness :
    endpointResponseBodyIsNull (.resp { status := 204 }) = true ∧
    (callMiddlewareSection true "production" (fun _ => true) (.vObj []) "/x"
        (fun next => next ()) (.resp { status := 204 })).1 =
      (fun next => next ())
        (fun _ =>
          endpointTerminalNext "production" (fun _ => true) (.vObj []) "/x"
            (.resp { status := 204 })) :=
  ⟨rfl,
    (endpoint_middleware_dispatch "production" (fun _ => true) (.vObj [])
        "/x" (fun next => next ()) (.resp { status := 204 })).2.2 rfl⟩

/-- Claim C1: when a page render fails (the render attempt throws, so
`#renderPage` returns the bare 500), `App.render` makes exactly one
fallback attempt against a `/500` route: with no `/500` route the result
is the bare bodiless 500; with a `/500` route the fallback is rendered at
status 500 and its response returned, any failure of the fallback (throw
inside or before its `try` block) being swallowed into the bare bodiless
500 — the render-attempt trace shows there is never a second fallback
attempt. The last conjunct places this page branch inside `App.render`. -/
theorem render_failure_single_fallback (A : AppModel) (rd : RouteData)
    (ds : Nat) (hpre : A.renderPrelude rd = false)
    (hfail : A.renderAttempt rd ds = .err) :
    (A.matchRouteFn "/500" = none →
      renderPageBranch A rd ds = (.ok bare500, [(rd, ds)])) ∧
    (∀ fh, A.matchRouteFn "/500" = some fh →
      (renderPageBranch A rd ds).2 = [(rd, ds), (fh, 500)] ∧
      (A.renderPrelude fh = true →
        (renderPageBranch A rd ds).1 = .ok bare500) ∧
      (A.renderPrelude fh = false → A.renderAttempt fh 500 = .err →
        (renderPageBranch A rd ds).1 = .ok bare500) ∧
      (∀ r, A.renderPrelude fh = false → A.renderAttempt fh 500 = .ok r →
        (renderPageBranch A rd ds).1 = .ok r)) ∧
    (∀ fuel p, rd.type = "page" →
      appRender A (fuel + 1) p (some rd) =
        (renderPageBranch A rd (if rd.route == "/404" then 404 else 200)).1) := by
  refine ⟨?_, ?_, ?_⟩
  · intro h500
    simp [renderPageBranch, renderPageStep, hpre, hfail, h500, bare500]
  · intro fh h500
    cases hp2 : A.renderPrelude fh <;>
      cases ha2 : A.renderAttempt fh 500 <;>
      simp_all [renderPageBranch, renderPageStep, bare500]
  · intro fuel p hty
    simp [appRender, hty]

/-! ### Concrete route tables and app models used by the witnesses -/

/-- A plain page route. -/
def rdIndex : RouteData := { route := "/index", type := "page", component := "cIndex" }

/-- A user `/500` page route. -/
def rd500 : RouteData := { route := "/500", type := "page", component := "c500" }

/-- A pre-rendered `/404` page route. -/
def rd404pre : RouteData :=
  { route := "/404", type := "page", prerender := true, component := "c404" }

/-- A server-rendered `/404` page route. -/
def rd404live : RouteData := { route := "/404", type := "page", component := "c404" }

/-- A pre-rendered page route. -/
def rdPre : RouteData :=
  { route := "/pre", type := "page", prerender := true, component := "cPre" }

/-- An endpoint route. -/
def rdEp : RouteData := { route := "/ep", type := "endpoint", component := "cEp" }

/-- The response of a successful fallback render. -/
def recoveredPage : Response := { status := 200, body := some "recovered" }

/-- An app whose `/index` page render always throws and whose `/500`
fallback renders `recoveredPage`. -/
def appC1 : AppModel :=
  { assets := [],
    matchRouteFn := fun p =>
      if p == "/index" then some rdIndex
      else if p == "/500" then some rd500
      else none,
    renderPrelude := fun _ => false,
    renderAttempt := fun rd _ =>
      if rd.route == "/index" then .err else .ok recoveredPage,
    endpointResult := fun _ => .simple "" none {},
    mimeGetType := fun _ => none }

/-- Witness for `render_failure_single_fallback`: in `appC1` the failed
`/index` render makes exactly the two attempts `/index` then `/500`. -/
theorem render_failure_single_fallback_witness :
    appC1.renderPrelude rdIndex = false ∧
    appC1.renderAttempt rdIndex 200 = .err ∧
    (renderPageBranch appC1 rdIndex 200).2 = [(rdIndex, 200), (rd500, 500)] :=
  ⟨rfl, rfl,
    ((render_failure_single_fallback appC1 rdIndex 200 rfl rfl).2.1
        rd500 rfl).1⟩

/-- Claim C3: for a pathname matching no route, the not-found lookup
additionally probes the fixed `/404` pattern; when the `/404` route is
itself pre-rendered the matcher reports no match and `App.render`
terminates with the bare bodiless 404 response. -/
theorem notFound_prerendered_bare404 (A : AppModel) (p : String) (fuel : Nat)
    (hassets : A.assets.contains p = false)
    (hmatch : A.matchRouteFn p = none) :
    (appMatchTraced A p true).2 = [p, "/404"] ∧
    (∀ nf, A.matchRouteFn "/404" = some nf → nf.prerender = true →
      appMatch A p true = none ∧
      appRender A (fuel + 1) p none = .ok bare404) := by
  have hmem : p ∉ A.assets := by simpa using hassets
  refine ⟨by simp [appMatchTraced, hmem, hmatch], ?_⟩
  intro nf h404 hpre
  have hm : appMatch A p true = none := by
    simp [appMatch, appMatchTraced, hmem, hmatch, h404, hpre]
  have hm0 : appMatch A p false = none := by
    simp [appMatch, appMatchTraced, hmem, hmatch]
  exact ⟨hm, by simp [appRender, hm, hm0]⟩

/-- An app whose only route is a pre-rendered `/404` page. -/
def appC3 : AppModel :=
  { assets := [],
    matchRouteFn := fun p => if p == "/404" then some rd404pre else none,
    renderPrelude := fun _ => false,
    renderAttempt := fun _ _ => .ok recoveredPage,
    endpointResult := fun _ => .simple "" none {},
    mimeGetType := fun _ => none }

/-- Witness for `notFound_prerendered_bare404` on `appC3`. -/
theorem notFound_prerendered_bare404_witness :
    appC3.assets.contains "/nothing" = false ∧
    appC3.matchRouteFn "/nothing" = none ∧
    (appMatchTraced appC3 "/nothing" true).2 = ["/nothing", "/404"] ∧
    appMatch appC3 "/nothing" true = none ∧
    appRender appC3 1 "/nothing" none = .ok bare404 := by
  have h := notFound_prerendered_bare404 appC3 "/nothing" 0 rfl rfl
  exact ⟨rfl, rfl, h.1, (h.2 rd404pre rfl rfl).1, (h.2 rd404pre rfl rfl).2⟩

/-- Claim C10: a pathname matching a pre-rendered route makes `App.match`
return no match even with `matchNotFound` set, without ever probing the
`/404` pattern (the probe trace is just the pathname); `App.render` then
returns the bare bodiless 404 response — for any `/404` route the
manifest may hold. -/
theorem prerendered_route_shortcircuits_404 (A : AppModel) (p : String)
    (fuel : Nat) (rd : RouteData) (hassets : A.assets.contains p = false)
    (hmatch : A.matchRouteFn p = some rd) (hpre : rd.prerender = true) :
    appMatchTraced A p true = (none, [p]) ∧
    appMatchTraced A p false = (none, [p]) ∧
    appRender A (fuel + 1) p none = .ok bare404 := by
  have hmem : p ∉ A.assets := by simpa using hassets
  have h1 : appMatchTraced A p true = (none, [p]) := by
    simp [appMatchTraced, hmem, hmatch, hpre]
  have h2 : appMatchTraced A p false = (none, [p]) := by
    simp [appMatchTraced, hmem, hmatch, hpre]
  refine ⟨h1, h2, ?_⟩
  simp [appRender, appMatch, h1, h2]

/-- An app with a pre-rendered `/pre` page and a server-rendered `/404`
page. -/
def appC10 : AppModel :=
  { assets := [],
    matchRouteFn := fun p =>
      if p == "/pre" then some rdPre
      else if p == "/404" then some rd404live
      else none,
    renderPrelude := fun _ => false,
    renderAttempt := fun _ _ => .ok recoveredPage,
    endpointResult := fun _ => .simple "" none {},
    mimeGetType := fun _ => none }

/-- Witness for `prerendered_route_shortcircuits_404` on `appC10`, whose
manifest does hold a non-pre-rendered `/404` route. -/
theorem prerendered_route_shortcircuits_404_witness :
    appC10.matchRouteFn "/404" = some rd404live ∧
    rd404live.prerender = false ∧
    appC10.assets.contains "/pre" = false ∧
    appC10.matchRouteFn "/pre" = some rdPre ∧
    rdPre.prerender = true ∧
    (appMatchTraced appC10 "/pre" true = (none, ["/pre"]) ∧
      appMatchTraced appC10 "/pre" false = (none, ["/pre"]) ∧
      appRender appC10 1 "/pre" none = .ok bare404) :=
  ⟨rfl, rfl, rfl, rfl, rfl,
    prerendered_route_shortcircuits_404 appC10 "/pre" 0 rdPre rfl rfl rfl⟩

/-- Claim C5: for an endpoint result of kind simple, the orchestrator
responds with status 200, Content-Type computed from `mime.getType`
(suffixed `;charset=utf-8`, defaulting to `text/plain;charset=utf-8`
when the lookup yields nothing), Content-Length equal to the UTF-8
encoded byte length of the body, and the invoker's cookies attached. -/
theorem endpoint_simple_result (A : AppModel) (p : String) (rd : RouteData)
    (renderFn : String → Option RouteData → Except Unit Response)
    (body : String) (enc : Option String) (cookies : AstroCookies)
    (hres : A.endpointResult rd = .simple body enc cookies) :
    callEndpointStep renderFn A p rd =
      .ok (buildSimpleResponse A.mimeGetType p body cookies) ∧
    (buildSimpleResponse A.mimeGetType p body cookies).status = 200 ∧
    headersGet (buildSimpleResponse A.mimeGetType p body cookies).headers
        "Content-Length" =
      some (toString body.utf8ByteSize) ∧
    (buildSimpleResponse A.mimeGetType p body cookies).attachedCookies =
      some cookies ∧
    (A.mimeGetType p = none →
      headersGet (buildSimpleResponse A.mimeGetType p body cookies).headers
          "Content-Type" =
        some "text/plain;charset=utf-8") ∧
    (∀ m, A.mimeGetType p = some m →
      headersGet (buildSimpleResponse A.mimeGetType p body cookies).headers
          "Content-Type" =
        some (m ++ ";charset=utf-8")) := by
  refine ⟨by simp [callEndpointStep, hres], rfl, ?_, rfl, ?_, ?_⟩
  · cases hm : A.mimeGetType p <;>
      simp [buildSimpleResponse, attachToResponse, headersGet, hm]
  · intro hm
    simp [buildSimpleResponse, attachToResponse, headersGet, hm]
  · intro m hm
    simp [buildSimpleResponse, attachToResponse, headersGet, hm]

/-- The cookie jar produced by the endpoint invoker in `appC5`. -/
def epCookies : AstroCookies := { entries := [("k", "v")] }

/-- An app whose endpoint returns the simple body `"hi"` on a URL with no
known extension. -/
def appC5 : AppModel :=
  { assets := [],
    matchRouteFn := fun _ => none,
    renderPrelude := fun _ => false,
    renderAttempt := fun _ _ => .ok recoveredPage,
    endpointResult := fun _ => .simple "hi" none epCookies,
    mimeGetType := fun _ => none }

/-- Witness for `endpoint_simple_result`: simple body `"hi"` with no
extension yields Content-Type `text/plain;charset=utf-8`, Content-Length
`2`, status 200 and the cookies attached. -/
theorem endpoint_simple_result_witness :
    appC5.endpointResult rdEp = .simple "hi" none epCookies ∧
    callEndpointStep (fun q r => appRender appC5 0 q r) appC5 "/ep" rdEp =
      .ok (buildSimpleResponse appC5.mimeGetType "/ep" "hi" epCookies) ∧
    headersGet
        (buildSimpleResponse appC5.mimeGetType "/ep" "hi" epCookies).headers
        "Content-Type" =
      some "text/plain;charset=utf-8" ∧
    headersGet
        (buildSimpleResponse appC5.mimeGetType "/ep" "hi" epCookies).headers
        "Content-Length" =
      some "2" ∧
    (buildSimpleResponse appC5.mimeGetType "/ep" "hi" epCookies).status =
      200 ∧
    (buildSimpleResponse appC5.mimeGetType "/ep" "hi"
        epCookies).attachedCookies =
      some epCookies := by
  have h := endpoint_simple_result appC5 "/ep" rdEp
    (fun q r => appRender appC5 0 q r) "hi" none epCookies rfl
  exact ⟨rfl, h.1, h.2.2.2.2.1 rfl, h.2.2.1, h.2.1, h.2.2.2.1⟩

/-- Claim C6: an endpoint result that is a full response carrying the
`X-Astro-Response: Not-Found` sentinel header is not returned: the
orchestrator re-matches `/404` and, when a route is found, recursively
renders it; the sentinel response itself is returned only when no `/404`
route matches. The last conjunct places this dispatch inside
`App.render`. -/
theorem endpoint_notFound_sentinel (A : AppModel) (p : String)
    (rd : RouteData) (fuel : Nat) (resp : Response)
    (hres : A.endpointResult rd = .response resp)
    (hsent : headersGet resp.headers "X-Astro-Response" = some "Not-Found") :
    (∀ ford, appMatch A "/404" false = some ford →
      callEndpointStep (fun q r => appRender A fuel q r) A p rd =
        appRender A fuel "/404" (some ford)) ∧
    (appMatch A "/404" false = none →
      callEndpointStep (fun q r => appRender A fuel q r) A p rd =
        .ok resp) ∧
    (rd.type = "endpoint" → ∀ q,
      appRender A (fuel + 1) q (some rd) =
        callEndpointStep (fun q' r => appRender A fuel q' r) A q rd) := by
  refine ⟨?_, ?_, ?_⟩
  · intro ford hford
    simp [callEndpointStep, hres, hsent, hford]
  · intro hford
    simp [callEndpointStep, hres, hsent, hford]
  · intro hty q
    simp [appRender, hty]

/-- The sentinel response an endpoint uses to request 404 handling. -/
def sentinelResp : Response :=
  { status := 200, headers := [("X-Astro-Response", "Not-Found")] }

/-- An app whose `/ep` endpoint returns the sentinel response while a
server-rendered `/404` page exists. -/
def appC6 : AppModel :=
  { assets := [],
    matchRouteFn := fun p =>
      if p == "/404" then some rd404live
      else if p == "/ep" then some rdEp
      else none,
    renderPrelude := fun _ => false,
    renderAttempt := fun _ _ => .ok recoveredPage,
    endpointResult := fun _ => .response sentinelResp,
    mimeGetType := fun _ => none }

/-- Witness for `endpoint_notFound_sentinel` on `appC6`. -/
theorem endpoint_notFound_sentinel_witness :
    appC6.endpointResult rdEp = .response sentinelResp ∧
    headersGet sentinelResp.headers "X-Astro-Response" = some "Not-Found" ∧
    appMatch appC6 "/404" false = some rd404live ∧
    callEndpointStep (fun q r => appRender appC6 1 q r) appC6 "/ep" rdEp =
      appRender appC6 1 "/404" (some rd404live) :=
  ⟨rfl, rfl, rfl,
    (endpoint_notFound_sentinel appC6 "/ep" rdEp 1 sentinelResp rfl rfl).1
      rd404live rfl⟩

end Astro
